import Mathlib

/-!
Verification development for sktime/transformers/panel/compose.py.

The module defines four adapters over panel (collection-of-time-series) data:

* `ColumnTransformer` — a thin wrapper around sklearn's column transformer that
  adds input coercion (`check_X(..., coerce_to_pandas=True)`), a `preserve_dataframe`
  flag consulted in `_hstack`, an `_is_fitted` flag, and a per-entry output
  validation `_validate_output`.
* `ColumnConcatenator` — flattens a multivariate panel into a single-column panel
  by tabularizing and re-nesting.
* `_RowTransformer` / `SeriesToPrimitivesRowTransformer` /
  `SeriesToSeriesRowTransformer` — broadcast a template transformer over the
  instances (rows) of a panel, one fresh clone per instance.
* `make_row_transformer` — factory selecting the broadcaster variant.

Machine values are embedded as lists of integers: a series is a `List Int`,
a 2D array is a list of rows, a nested DataFrame is a table of series cells,
and a 3D numpy array of shape N x D x T is a list of N instances, each a list
of D series of length T (so the nested and 3D forms share one representation
and the cell-by-cell conversion between them is the identity on it).
Python exceptions are embedded as `Except PyError`.  Object attributes touched
by the code are carried in explicit state structures.  Utility functions that
live outside this file's source (check_X, the nested/2D/3D converters,
`BaseTransformer.check_is_fitted`, and sklearn's computation of
`sparse_output_`) are modelled from the spec, as marked on each definition.
-/

/-- Error taxonomy of the Python code: NotFittedError, ValueError, TypeError,
and the NotImplementedError raised for unsupported unequal-length data. -/
inductive PyError
  | notFitted
  | valueError (msg : String)
  | typeError (msg : String)
  | unsupportedData
deriving DecidableEq

/-- A single time series: one nested cell, or one variable of one instance. -/
abbrev Cell := List Int

/-- A 2D numeric array, as a list of rows. -/
abbrev Mat := List (List Int)

/-- A nested DataFrame: rows are instances, columns are variables, cells are series. -/
abbrev NestedDF := List (List Cell)

/-- A 3D numpy array of shape N x D x T: N instances, each a list of D series. -/
abbrev Arr3 := List (List (List Int))

/-- A panel input, in either of the two accepted representations. -/
inductive PanelInput
  | nested (df : NestedDF)
  | arr3 (a : Arr3)
deriving DecidableEq

/-- Number of instances (rows) of a panel input. -/
def PanelInput.nInstances : PanelInput → Nat
  | .nested df => df.length
  | .arr3 a => a.length

/-- True when every element of the list equals the first one. -/
def allEqualNat : List Nat → Bool
  | [] => true
  | x :: xs => xs.all (fun y => y == x)

/-- Modelled from the spec: the validity test of `check_X` (from
sktime.utils.validation.panel, not under src/) on a nested DataFrame — at
least one instance, at least one column, and all rows with the same number
of columns. -/
def validNested (df : NestedDF) : Bool :=
  match df with
  | [] => false
  | r0 :: rest => decide (0 < r0.length) && rest.all (fun r => r.length == r0.length)

/-- Length of the first series of the first instance of a 3D array. -/
def seriesLen (a : Arr3) : Nat :=
  match a with
  | [] => 0
  | i0 :: _ =>
    match i0 with
    | [] => 0
    | s0 :: _ => s0.length

/-- Modelled from the spec: the validity test of `check_X` on a 3D array — at
least one instance, at least one variable, and rectangular shape N x D x T. -/
def validArr3 (a : Arr3) : Bool :=
  match a with
  | [] => false
  | i0 :: _ =>
    decide (0 < i0.length) &&
      a.all (fun inst =>
        inst.length == i0.length && inst.all (fun s => s.length == seriesLen a))

/-- Modelled from the spec: `check_X(X)` with no coercion flag — validate the
panel and return it in its original representation (not under src/). -/
def check_X_plain (X : PanelInput) : Except PyError PanelInput :=
  match X with
  | .nested df =>
    if validNested df then .ok (PanelInput.nested df)
    else .error (.valueError "X is not a valid panel")
  | .arr3 a =>
    if validArr3 a then .ok (PanelInput.arr3 a)
    else .error (.valueError "X is not a valid panel")

/-- Modelled from the spec: `check_X(X, coerce_to_pandas=True)` (not under
src/) — validate, and re-nest a 3D array cell by cell into a nested
DataFrame; under the shared list representation the re-nesting is the
identity on the payload. -/
def coerceToPandas (X : PanelInput) : Except PyError NestedDF :=
  match X with
  | .nested df =>
    if validNested df then .ok df else .error (.valueError "X is not a valid panel")
  | .arr3 a =>
    if validArr3 a then .ok a else .error (.valueError "X is not a valid panel")

/-- The lengths of every cell of a nested DataFrame, row-major. -/
def cellLengths (df : NestedDF) : List Nat := (df.flatten).map List.length

/-- Modelled from the spec: `check_X(X, coerce_to_numpy=True)` (not under
src/) — validate, and convert a nested DataFrame to a 3D array, which
requires every series to have equal length; unequal lengths are an
unsupported-data failure. -/
def check_X_numpy (X : PanelInput) : Except PyError Arr3 :=
  match X with
  | .arr3 a =>
    if validArr3 a then .ok a else .error (.valueError "X is not a valid panel")
  | .nested df =>
    if validNested df then
      if allEqualNat (cellLengths df) then .ok df
      else .error PyError.unsupportedData
    else .error (.valueError "X is not a valid panel")

/-- Modelled from the spec: `from_nested_to_2d_array` (from
sktime.utils.data_processing, not under src/) — flatten each instance row
into the concatenation of its cells, variable-major then time-minor; the
conversion to a rectangular 2D array requires equal series lengths. -/
def from_nested_to_2d_array (df : NestedDF) : Except PyError Mat :=
  if allEqualNat (cellLengths df) then .ok (df.map List.flatten)
  else .error PyError.unsupportedData

/-- Modelled from the spec: `from_3d_numpy_to_2d_array` (not under src/) —
reshape N x D x T into N x (D*T) by flattening each instance. -/
def from_3d_numpy_to_2d_array (a : Arr3) : Mat := a.map List.flatten

/-- Modelled from the spec: `from_2d_array_to_nested` (not under src/) — turn
each row of a 2D array into a single nested cell, giving a one-column
nested DataFrame. -/
def from_2d_array_to_nested (m : Mat) : NestedDF := m.map (fun r => [r])

/-- State of a `ColumnConcatenator`: it has no learned parameters, only the
fitted flag maintained by the `_PanelToPanelTransformer` base class. -/
structure ColumnConcatenatorState where
  is_fitted : Bool
deriving DecidableEq

/-- Modelled from the spec: the base-class `fit` of a transformer with no
learned parameters is a no-op beyond marking the object fitted. -/
def ColumnConcatenator.fit (_cc : ColumnConcatenatorState) : ColumnConcatenatorState :=
  { is_fitted := true }

/-- `ColumnConcatenator.transform`: check fitted, validate X, tabularize
(nested path or 3D path), then re-nest into a single column. -/
def ColumnConcatenator.transform (cc : ColumnConcatenatorState) (X : PanelInput) :
    Except PyError NestedDF :=
  if cc.is_fitted = false then .error PyError.notFitted
  else
    match check_X_plain X with
    | .error e => .error e
    | .ok X2 =>
      match X2 with
      | .nested df =>
        match from_nested_to_2d_array df with
        | .error e => .error e
        | .ok m => .ok (from_2d_array_to_nested m)
      | .arr3 a => .ok (from_2d_array_to_nested (from_3d_numpy_to_2d_array a))

/-- State of the sktime `ColumnTransformer` wrapper: the `_is_fitted` flag set
by the wrapper, and the fitted state of the underlying sklearn column
transformer, abstracted as a value of an arbitrary type. -/
structure CTState (σ : Type) where
  is_fitted : Bool
  inner : σ
deriving DecidableEq

/-- `ColumnTransformer.__init__` sets `self._is_fitted = False`. -/
def ColumnTransformer.init {σ : Type} (inner0 : σ) : CTState σ :=
  { is_fitted := false, inner := inner0 }

/-- `ColumnTransformer.fit`: coerce X to pandas via check_X, delegate to the
sklearn parent fit (abstracted as `skFit`), then set `_is_fitted`.  The
previous state is rebuilt from scratch. -/
def ColumnTransformer.fit {σ : Type} (skFit : PanelInput → σ) (_s : CTState σ)
    (X : PanelInput) : Except PyError (CTState σ) :=
  match coerceToPandas X with
  | .error e => .error e
  | .ok Xc => .ok { is_fitted := true, inner := skFit (PanelInput.nested Xc) }

/-- `ColumnTransformer.transform`: `check_is_fitted` first (modelled from the
spec, the base class raises a not-fitted error when `_is_fitted` is false),
then coerce X to pandas and delegate to the parent transform `skTrans`. -/
def ColumnTransformer.transform {σ Out : Type} (skTrans : σ → PanelInput → Out)
    (s : CTState σ) (X : PanelInput) : Except PyError Out :=
  if s.is_fitted = false then .error PyError.notFitted
  else
    match coerceToPandas X with
    | .error e => .error e
    | .ok Xc => .ok (skTrans s.inner (PanelInput.nested Xc))

/-- `ColumnTransformer.fit_transform`: delegates directly to the parent
fit_transform `skFitTrans` on the raw, uncoerced input, then sets
`_is_fitted`.  Note the absence of the `check_X` coercion that `fit` and
`transform` both perform. -/
def ColumnTransformer.fit_transform {σ Out : Type} (skFitTrans : PanelInput → σ × Out)
    (_s : CTState σ) (X : PanelInput) : Except PyError (CTState σ × Out) :=
  .ok ({ is_fitted := true, inner := (skFitTrans X).1 }, (skFitTrans X).2)

/-- The composite `fit` followed by `transform` on the same input, returning
the state left by `fit` together with the transform output. -/
def fitThenTransform {σ Out : Type} (skFit : PanelInput → σ)
    (skTrans : σ → PanelInput → Out) (s : CTState σ) (X : PanelInput) :
    Except PyError (CTState σ × Out) :=
  match ColumnTransformer.fit skFit s X with
  | .error e => .error e
  | .ok s2 =>
    match ColumnTransformer.transform skTrans s2 X with
    | .error e => .error e
    | .ok out => .ok (s2, out)

/-- A per-entry output value as classified by `_hstack`: numpy array, scipy
sparse matrix, pandas DataFrame, or pandas Series (a one-column value). -/
inductive PyVal
  | npArray (m : Mat)
  | spMatrix (m : Mat)
  | dataFrame (m : Mat)
  | series (v : List Int)
deriving DecidableEq

/-- Whether the value is a scipy sparse matrix. -/
def PyVal.isSparse : PyVal → Bool
  | .spMatrix _ => true
  | _ => false

/-- Whether the value has a pandas container type (Series or DataFrame). -/
def PyVal.isPandasType : PyVal → Bool
  | .dataFrame _ => true
  | .series _ => true
  | _ => false

/-- The dense matrix content of a value; a Series contributes one column. -/
def PyVal.toMat : PyVal → Mat
  | .npArray m => m
  | .spMatrix m => m
  | .dataFrame m => m
  | .series v => v.map (fun x => [x])

/-- Total number of scalar entries of a matrix. -/
def Mat.numEntries (m : Mat) : Nat := (m.map List.length).sum

/-- Number of nonzero entries of a matrix (the nnz of a sparse matrix). -/
def Mat.nnzCount (m : Mat) : Nat :=
  (m.map (fun r => (r.filter (fun x => x != 0)).length)).sum

/-- Size contribution of an entry to the density computation: the full size. -/
def PyVal.sizeContrib : PyVal → Nat
  | .npArray m => Mat.numEntries m
  | .spMatrix m => Mat.numEntries m
  | .dataFrame m => Mat.numEntries m
  | .series v => v.length

/-- Nonzero contribution of an entry to the density computation: nnz for a
sparse matrix, full size for dense containers. -/
def PyVal.nnzContrib : PyVal → Nat
  | .spMatrix m => Mat.nnzCount m
  | x => x.sizeContrib

/-- Overall density of the transformer outputs: nonzero count over total size. -/
def overallDensity (Xs : List PyVal) : ℚ :=
  ((Xs.map PyVal.nnzContrib).sum : ℚ) / ((Xs.map PyVal.sizeContrib).sum : ℚ)

/-- Modelled from the spec: the `sparse_output_` flag set during the external
sklearn fit, per the documented `sparse_threshold` semantics — true exactly
when some entry is sparse and the overall density is below the threshold. -/
def computeSparseOutput (Xs : List PyVal) (threshold : ℚ) : Bool :=
  Xs.any PyVal.isSparse && decide (overallDensity Xs < threshold)

/-- Column-wise concatenation of matrices with equal row counts. -/
def hstackMats : List Mat → Mat
  | [] => []
  | [m] => m
  | m :: rest => List.zipWith (fun r1 r2 => r1 ++ r2) m (hstackMats rest)

/-- The combined result of `_hstack`, tagged by its container type. -/
inductive Stacked
  | sparseCSR (m : Mat)
  | dataFrame (m : Mat)
  | dense (m : Mat)
deriving DecidableEq

/-- `ColumnTransformer._hstack`: if `sparse_output_` is set, stack everything
as one sparse CSR matrix; otherwise, if `preserve_dataframe` is set and any
entry is a pandas Series or DataFrame, concatenate as DataFrame columns;
otherwise stack as a dense array. -/
def ColumnTransformer._hstack (sparse_output_ : Bool) (preserve_dataframe : Bool)
    (Xs : List PyVal) : Stacked :=
  if sparse_output_ then Stacked.sparseCSR (hstackMats (Xs.map PyVal.toMat))
  else if preserve_dataframe && Xs.any PyVal.isPandasType then
    Stacked.dataFrame (hstackMats (Xs.map PyVal.toMat))
  else Stacked.dense (hstackMats (Xs.map PyVal.toMat))

/-- A per-entry transform output as seen by `_validate_output`: either a value
with an `ndim` attribute (0 when the attribute is absent), or a pandas
Series, which is 1-dimensional but accepted. -/
inductive TOut
  | arr (ndim : Nat)
  | series (v : List Int)
deriving DecidableEq

/-- The `getattr(Xs, "ndim", 0)` of an output value. -/
def TOut.ndim : TOut → Nat
  | .arr n => n
  | .series _ => 1

/-- Whether the output is a pandas Series. -/
def TOut.isSeries : TOut → Bool
  | .series _ => true
  | _ => false

/-- The acceptance test of `_validate_output`: 2-dimensional, or a Series. -/
def outputOK (o : TOut) : Bool := (o.ndim == 2) || o.isSeries

/-- The ValueError message of `_validate_output`, naming the offending entry
(the quoting and the container enumeration of the Python text are elided). -/
def valErrMsg (entry : String) : String :=
  "The output of the " ++ entry ++ " transformer should be 2D"

/-- `ColumnTransformer._validate_output`: walk `zip(result, names)` and raise
a ValueError naming the entry at the first output that is neither
2-dimensional nor a Series. -/
def _validate_output : List TOut → List String → Except PyError Unit
  | [], _ => .ok ()
  | _ :: _, [] => .ok ()
  | o :: os, n :: ns =>
    if outputOK o = false then .error (.valueError (valErrMsg n))
    else _validate_output os ns

/-- The capability tag of a template transformer: instance of
`_SeriesToSeriesTransformer`, of `_SeriesToPrimitivesTransformer`, or of
neither.  The two capability classes are distinct, so the `isinstance`
tests of the source are tag comparisons here. -/
inductive TType
  | s2s
  | s2p
  | other
deriving DecidableEq

/-- The `__name__` of the class required by a broadcaster variant. -/
def typeName : TType → String
  | .s2s => "_SeriesToSeriesTransformer"
  | .s2p => "_SeriesToPrimitivesTransformer"
  | .other => "BaseTransformer"

/-- The state of one per-instance clone of the template transformer: fresh
from `clone`, or fitted on the (transposed) data of one instance. -/
inductive CloneSt
  | unfitted
  | fitted (trainData : Mat)
deriving DecidableEq

/-- State of a `_RowTransformer`: the constructor arguments, the fitted flag
of the base class, and the `transformer_` attribute assigned by `_prepare`
(absent until the first transform call). -/
structure RowTState where
  transformer : TType
  check_transformer : Bool
  is_fitted : Bool
  transformer_ : Option (List CloneSt)
deriving DecidableEq

/-- `_RowTransformer.__init__`: store the template and the checking flag; the
body performs no validation, so construction never raises. -/
def _RowTransformer.init (t : TType) (check : Bool) : Except PyError RowTState :=
  .ok { transformer := t, check_transformer := check, is_fitted := false,
        transformer_ := none }

/-- Modelled from the spec: the trivial base-class fit of a fit-in-transform
transformer marks the object fitted. -/
def _RowTransformer.fit (rt : RowTState) : RowTState := { rt with is_fitted := true }

/-- `_RowTransformer._check_transformer`: raise a TypeError naming the
required capability class when checking is enabled and the template is not
an instance of the variant's `_valid_transformer_type`. -/
def _check_transformer (rt : RowTState) (validType : TType) : Except PyError Unit :=
  if rt.check_transformer = true ∧ rt.transformer ≠ validType then
    .error (.typeError ("transformer must be a " ++ typeName validType))
  else .ok ()

/-- `_RowTransformer._prepare`: check fitted, check the transformer type,
coerce X to a 3D array, and assign `self.transformer_` to a fresh list of
one unfitted clone per instance. -/
def RowTState.prepare (rt : RowTState) (validType : TType) (X : PanelInput) :
    Except PyError (Arr3 × RowTState) :=
  if rt.is_fitted = false then .error PyError.notFitted
  else
    match _check_transformer rt validType with
    | .error e => .error e
    | .ok _ =>
      match check_X_numpy X with
      | .error e => .error e
      | .ok A =>
        .ok (A, { rt with transformer_ := some (List.replicate A.length CloneSt.unfitted) })

/-- Number of columns of a rectangular matrix. -/
def colLen (m : Mat) : Nat := (m.head?.getD []).length

/-- Transpose of a rectangular matrix: `X[i].T`, time axis first. -/
def transposeMat (m : Mat) : Mat :=
  (List.range (colLen m)).map (fun t => m.map (fun row => row.getD t 0))

/-- The variable count `X.shape[1]` of a rectangular 3D array. -/
def numVars (A : Arr3) : Nat := (A.head?.getD []).length

/-- The numpy row assignment `Xt[i] = v` into a row of length D: succeeds
verbatim when the lengths agree, broadcasts a length-one value across the
row, and raises otherwise. -/
def npSetRow (D : Nat) (v : List Int) : Option (List Int) :=
  if v.length = D then some v
  else if v.length = 1 then some (List.replicate D (v.head?.getD 0))
  else none

/-- The instance loop of `SeriesToPrimitivesRowTransformer.transform`: for
each instance in order, apply the clone's fit_transform `f` to the
transposed instance and assign the result into the preallocated row. -/
def stp_rows (f : Mat → List Int) (D : Nat) : Arr3 → Option Mat
  | [] => some []
  | inst :: rest =>
    match npSetRow D (f (transposeMat inst)) with
    | none => none
    | some r =>
      match stp_rows f D rest with
      | none => none
      | some rs => some (r :: rs)

/-- The per-instance clone states after the loop: each clone has been fitted
on its own instance's transposed data. -/
def stp_clones (A : Arr3) : List CloneSt :=
  A.map (fun inst => CloneSt.fitted (transposeMat inst))

/-- `SeriesToPrimitivesRowTransformer.transform`: `_prepare`, then fill the
N x D zero matrix row by row with each clone's fit_transform output, and
return the resulting table together with the final object state.  The
template's fit_transform behaviour is abstracted as the function `f`
shared by all clones (cloning copies parameters, not fitted state). -/
def SeriesToPrimitivesRowTransformer.transform (f : Mat → List Int) (rt : RowTState)
    (X : PanelInput) : Except PyError (Mat × RowTState) :=
  match RowTState.prepare rt TType.s2p X with
  | .error e => .error e
  | .ok (A, rt1) =>
    match stp_rows f (numVars A) A with
    | none => .error (.valueError "could not broadcast input array")
    | some Y => .ok (Y, { rt1 with transformer_ := some (stp_clones A) })

/-- A constructed broadcaster variant, as returned by the factory. -/
inductive RowVariant
  | seriesToSeries (rt : RowTState)
  | seriesToPrimitives (rt : RowTState)
deriving DecidableEq

/-- The first phase of `make_row_transformer`: resolve the variant string,
either validating an explicit override or inspecting the template's
capability, raising the documented ValueError and TypeError otherwise. -/
def resolveTransformerType (t : TType) (transformer_type : Option String) :
    Except PyError String :=
  match transformer_type with
  | some s =>
    if s = "series-to-series" ∨ s = "series-to-primitives" then .ok s
    else .error (.valueError "Invalid transformer_type")
  | none =>
    match t with
    | TType.s2s => .ok "series-to-series"
    | TType.s2p => .ok "series-to-primitives"
    | TType.other => .error (.typeError "transformer type not understood")

/-- `make_row_transformer`: resolve the variant string, then construct the
matching broadcaster around the template (`check` stands for the
`check_transformer` keyword argument forwarded through kwargs). -/
def make_row_transformer (t : TType) (transformer_type : Option String)
    (check : Bool) : Except PyError RowVariant :=
  match resolveTransformerType t transformer_type with
  | .error e => .error e
  | .ok tt =>
    if tt = "series-to-series" then
      match _RowTransformer.init t check with
      | .error e => .error e
      | .ok rt => .ok (RowVariant.seriesToSeries rt)
    else
      match _RowTransformer.init t check with
      | .error e => .error e
      | .ok rt => .ok (RowVariant.seriesToPrimitives rt)

/-- The validating check returns its input unchanged when it succeeds. -/
theorem check_X_plain_ok {X X2 : PanelInput} (h : check_X_plain X = Except.ok X2) :
    X2 = X := by
  cases X with
  | nested df =>
    by_cases hv : validNested df = true
    · simp [check_X_plain, hv] at h
      exact h.symm
    · simp [check_X_plain, hv] at h
  | arr3 a =>
    by_cases hv : validArr3 a = true
    · simp [check_X_plain, hv] at h
      exact h.symm
    · simp [check_X_plain, hv] at h

/-- A successful nested-to-2D conversion flattens each row, so in particular
it preserves the row count. -/
theorem from_nested_to_2d_array_ok {df : NestedDF} {m : Mat}
    (h : from_nested_to_2d_array df = Except.ok m) : m = df.map List.flatten := by
  unfold from_nested_to_2d_array at h
  split at h
  · simp at h
    exact h.symm
  · simp at h

/-- C1: for every fitted ColumnConcatenator and every panel input accepted by
transform, the result has exactly as many rows as the input has instances,
and every row has exactly one column. -/
theorem C1_concatenator_shape (cc : ColumnConcatenatorState) (X : PanelInput)
    (Y : NestedDF) (h : ColumnConcatenator.transform cc X = Except.ok Y) :
    Y.length = X.nInstances ∧ ∀ r ∈ Y, r.length = 1 := by
  unfold ColumnConcatenator.transform at h
  split at h
  · simp at h
  · cases hc : check_X_plain X with
    | error e => rw [hc] at h; simp at h
    | ok X2 =>
      rw [hc] at h
      have hX2 := check_X_plain_ok hc
      subst hX2
      cases X2 with
      | nested df =>
        dsimp only at h
        cases hm : from_nested_to_2d_array df with
        | error e => rw [hm] at h; simp at h
        | ok m =>
          rw [hm] at h
          simp only [Except.ok.injEq] at h
          subst h
          have hmm := from_nested_to_2d_array_ok hm
          subst hmm
          refine ⟨by simp [from_2d_array_to_nested, PanelInput.nInstances], ?_⟩
          intro r hr
          simp only [from_2d_array_to_nested, List.mem_map] at hr
          obtain ⟨row, _, hrow⟩ := hr
          simp [← hrow]
      | arr3 a =>
        dsimp only at h
        simp only [Except.ok.injEq] at h
        subst h
        refine ⟨by simp [from_2d_array_to_nested, from_3d_numpy_to_2d_array,
          PanelInput.nInstances], ?_⟩
        intro r hr
        simp only [from_2d_array_to_nested, from_3d_numpy_to_2d_array, List.mem_map] at hr
        obtain ⟨row, _, hrow⟩ := hr
        simp [← hrow]

/-- Witness for C1 at a concrete fitted state and a 1-instance, 2-variable
nested input, whose transform output is the single cell of all four values. -/
theorem C1_concatenator_shape_witness :
    ([[[1, 2, 3, 4]]] : NestedDF).length =
        (PanelInput.nested [[[1, 2], [3, 4]]]).nInstances ∧
      ∀ r ∈ ([[[1, 2, 3, 4]]] : NestedDF), r.length = 1 :=
  C1_concatenator_shape { is_fitted := true } (PanelInput.nested [[[1, 2], [3, 4]]])
    [[[1, 2, 3, 4]]] rfl

/-- C2 counterexample: the claim that `fit_transform` always equals `fit`
followed by `transform` fails at a 3D-array input, with an inner sklearn
transformer that records its training input (and whose fit_transform is
coherent with its fit followed by its transform): `fit` coerces the input
to pandas before delegating, while `fit_transform` delegates the raw
input, so the two paths leave different inner fitted state and output. -/
theorem C2_fit_transform_counterexample :
    ColumnTransformer.fit_transform (fun Z => (Z, Z))
        (ColumnTransformer.init (PanelInput.nested [])) (PanelInput.arr3 [[[0]]]) =
      Except.ok
        ({ is_fitted := true, inner := PanelInput.arr3 [[[0]]] }, PanelInput.arr3 [[[0]]]) ∧
    fitThenTransform (fun Z => Z) (fun st _ => st)
        (ColumnTransformer.init (PanelInput.nested [])) (PanelInput.arr3 [[[0]]]) =
      Except.ok
        ({ is_fitted := true, inner := PanelInput.nested [[[0]]] },
          PanelInput.nested [[[0]]]) ∧
    (({ is_fitted := true, inner := PanelInput.arr3 [[[0]]] } : CTState PanelInput),
        PanelInput.arr3 [[[0]]]) ≠
      ({ is_fitted := true, inner := PanelInput.nested [[[0]]] }, PanelInput.nested [[[0]]]) :=
  ⟨rfl, rfl, by decide⟩

/-- C2 (amended): when the underlying sklearn fit_transform agrees with its
fit followed by its transform, and the input is already in the canonical
nested-DataFrame form accepted by check_X, `fit_transform` returns the
same output as `fit` followed by `transform` and leaves the same fitted
state. -/
theorem C2_fit_transform_equiv {σ Out : Type} (skFit : PanelInput → σ)
    (skTrans : σ → PanelInput → Out) (skFitTrans : PanelInput → σ × Out)
    (hco : ∀ Z, skFitTrans Z = (skFit Z, skTrans (skFit Z) Z))
    (s : CTState σ) (df : NestedDF) (hv : validNested df = true) :
    ColumnTransformer.fit_transform skFitTrans s (PanelInput.nested df) =
      fitThenTransform skFit skTrans s (PanelInput.nested df) := by
  unfold ColumnTransformer.fit_transform fitThenTransform ColumnTransformer.fit
    ColumnTransformer.transform
  simp [coerceToPandas, hv, hco (PanelInput.nested df)]

/-- Witness for C2 (amended) at a concrete coherent inner transformer and a
concrete valid nested input. -/
theorem C2_fit_transform_equiv_witness :
    ColumnTransformer.fit_transform (fun _ => ((0 : Nat), (0 : Nat)))
        (ColumnTransformer.init 0) (PanelInput.nested [[[5]]]) =
      fitThenTransform (fun _ => (0 : Nat)) (fun _ _ => (0 : Nat))
        (ColumnTransformer.init 0) (PanelInput.nested [[[5]]]) :=
  C2_fit_transform_equiv (fun _ => 0) (fun _ _ => 0) (fun _ => (0, 0))
    (fun _ => rfl) (ColumnTransformer.init 0) [[[5]]] rfl

/-- C3: whenever the sparse-output condition holds — some entry is sparse and
the overall density is below the threshold — `_hstack` returns a single
sparse CSR matrix of the column-stacked entries, for every value of
`preserve_dataframe` and hence even when a DataFrame entry is present. -/
theorem C3_hstack_sparse_precedence (Xs : List PyVal) (threshold : ℚ)
    (preserve_dataframe : Bool) (hs : Xs.any PyVal.isSparse = true)
    (hd : overallDensity Xs < threshold) :
    ColumnTransformer._hstack (computeSparseOutput Xs threshold) preserve_dataframe Xs =
      Stacked.sparseCSR (hstackMats (Xs.map PyVal.toMat)) := by
  have hso : computeSparseOutput Xs threshold = true := by
    simp [computeSparseOutput, hs, hd]
  simp [ColumnTransformer._hstack, hso]

/-- Witness for C3: a sparse all-zero entry next to a DataFrame entry, with
overall density one half below a threshold of three quarters, under
dataframe preservation; the stack is still the sparse matrix. -/
theorem C3_hstack_sparse_precedence_witness :
    ColumnTransformer._hstack
        (computeSparseOutput [PyVal.spMatrix [[0]], PyVal.dataFrame [[1]]] (3 / 4)) true
        [PyVal.spMatrix [[0]], PyVal.dataFrame [[1]]] =
      Stacked.sparseCSR [[0, 1]] :=
  C3_hstack_sparse_precedence [PyVal.spMatrix [[0]], PyVal.dataFrame [[1]]] (3 / 4) true
    rfl (by norm_num [overallDensity, PyVal.nnzContrib, PyVal.sizeContrib,
      Mat.numEntries, Mat.nnzCount])

/-- C4: calling transform on a ColumnTransformer whose fit has not completed
(the `_is_fitted` flag is still false) raises the not-fitted error, and no
transformation output is produced. -/
theorem C4_transform_requires_fit {σ Out : Type} (skTrans : σ → PanelInput → Out)
    (s : CTState σ) (X : PanelInput) (h : s.is_fitted = false) :
    ColumnTransformer.transform skTrans s X = Except.error PyError.notFitted := by
  simp [ColumnTransformer.transform, h]

/-- Witness for C4 at a freshly constructed (never fitted) transformer. -/
theorem C4_transform_requires_fit_witness :
    ColumnTransformer.transform (fun (st : Nat) (_ : PanelInput) => st)
        (ColumnTransformer.init 0) (PanelInput.nested [[[1]]]) =
      Except.error PyError.notFitted :=
  C4_transform_requires_fit (fun st _ => st) (ColumnTransformer.init 0)
    (PanelInput.nested [[[1]]]) rfl

/-- The validation walk succeeds exactly when every paired output passes the
acceptance test (the two lists are assumed aligned, as at the call site). -/
theorem validate_ok_iff (result : List TOut) (names : List String)
    (h : result.length = names.length) :
    (_validate_output result names = Except.ok () ↔ ∀ o ∈ result, outputOK o = true) := by
  induction result generalizing names with
  | nil => simp [_validate_output]
  | cons o os ih =>
    cases names with
    | nil => simp at h
    | cons n ns =>
      simp only [List.length_cons, Nat.succ.injEq] at h
      by_cases ho : outputOK o = false
      · simp [_validate_output, ho]
      · have ho2 : outputOK o = true := by
          cases hoo : outputOK o
          · exact absurd hoo ho
          · rfl
        simp [_validate_output, ho2, ih ns h]

/-- The validation walk reports the name paired with the first failing
output. -/
theorem validate_first_error (result : List TOut) (names : List String) (i : Nat)
    (hi : i < result.length) (hi2 : i < names.length)
    (hbad : outputOK (result.get ⟨i, hi⟩) = false)
    (hgood : ∀ j (hj : j < i), outputOK (result.get ⟨j, Nat.lt_trans hj hi⟩) = true) :
    _validate_output result names =
      Except.error (PyError.valueError (valErrMsg (names.get ⟨i, hi2⟩))) := by
  induction result generalizing names i with
  | nil => exact absurd hi (Nat.not_lt_zero i)
  | cons o os ih =>
    cases names with
    | nil => exact absurd hi2 (Nat.not_lt_zero i)
    | cons n ns =>
      cases i with
      | zero =>
        have hbad0 : outputOK o = false := hbad
        simp [_validate_output, hbad0]
      | succ j =>
        have h0 : outputOK o = true := hgood 0 (Nat.succ_pos j)
        have hstep : _validate_output (o :: os) (n :: ns) = _validate_output os ns := by
          simp [_validate_output, h0]
        rw [hstep]
        exact ih ns j (Nat.lt_of_succ_lt_succ hi) (Nat.lt_of_succ_lt_succ hi2) hbad
          (fun k hk => hgood (k + 1) (Nat.succ_lt_succ hk))

/-- C5: per-entry output validation raises a shape error naming the offending
entry exactly when some entry output is neither 2-dimensional nor an
accepted 1-dimensional Series; when every output is acceptable the
validation passes without error; and the reported error carries the name
paired with the first offending output. -/
theorem C5_validate_output_iff (result : List TOut) (names : List String)
    (h : result.length = names.length) :
    (_validate_output result names = Except.ok () ↔ ∀ o ∈ result, outputOK o = true) ∧
    ((∃ e, _validate_output result names = Except.error e) ↔
      ∃ o ∈ result, outputOK o = false) ∧
    (∀ i (hi : i < result.length) (hi2 : i < names.length),
      outputOK (result.get ⟨i, hi⟩) = false →
      (∀ j (hj : j < i), outputOK (result.get ⟨j, Nat.lt_trans hj hi⟩) = true) →
      _validate_output result names =
        Except.error (PyError.valueError (valErrMsg (names.get ⟨i, hi2⟩)))) := by
  refine ⟨validate_ok_iff result names h, ⟨?_, ?_⟩,
    fun i hi hi2 hbad hgood => validate_first_error result names i hi hi2 hbad hgood⟩
  · rintro ⟨e, he⟩
    by_contra hall
    push_neg at hall
    have hok : _validate_output result names = Except.ok () :=
      (validate_ok_iff result names h).mpr (fun o ho => by
        have := hall o ho
        cases hoo : outputOK o
        · exact absurd hoo this
        · rfl)
    rw [hok] at he
    simp at he
  · rintro ⟨o, ho, hbad⟩
    cases hv : _validate_output result names with
    | ok u =>
      cases u
      have := (validate_ok_iff result names h).mp hv o ho
      rw [this] at hbad
      simp at hbad
    | error e => exact ⟨e, rfl⟩

/-- Witness for C5: a 1-dimensional first output makes validation fail with
the ValueError naming the first entry. -/
theorem C5_validate_output_iff_witness :
    _validate_output [TOut.arr 1, TOut.arr 2] ["alpha", "beta"] =
      Except.error (PyError.valueError (valErrMsg "alpha")) :=
  (C5_validate_output_iff [TOut.arr 1, TOut.arr 2] ["alpha", "beta"] rfl).2.2 0
    (by decide) (by decide) (by decide) (fun j hj => absurd hj (Nat.not_lt_zero j))

/-- A successful numpy row assignment produces a row of exactly D entries. -/
theorem npSetRow_some_length {D : Nat} {v r : List Int} (h : npSetRow D v = some r) :
    r.length = D := by
  unfold npSetRow at h
  by_cases h1 : v.length = D
  · rw [if_pos h1] at h
    injection h with hv
    subst hv
    exact h1
  · rw [if_neg h1] at h
    by_cases h2 : v.length = 1
    · rw [if_pos h2] at h
      injection h with hv
      subst hv
      simp
    · rw [if_neg h2] at h
      exact absurd h (by simp)

/-- A successful instance loop produces one row per instance, and row i is
exactly the assignment of the clone output on the transposed instance i. -/
theorem stp_rows_sound (f : Mat → List Int) (D : Nat) (A : Arr3) (Y : Mat)
    (h : stp_rows f D A = some Y) :
    Y.length = A.length ∧
      ∀ i (hi : i < A.length) (hi2 : i < Y.length),
        npSetRow D (f (transposeMat (A.get ⟨i, hi⟩))) = some (Y.get ⟨i, hi2⟩) := by
  induction A generalizing Y with
  | nil =>
    simp [stp_rows] at h
    subst h
    exact ⟨rfl, fun i hi => absurd hi (Nat.not_lt_zero i)⟩
  | cons inst rest ih =>
    unfold stp_rows at h
    cases hr : npSetRow D (f (transposeMat inst)) with
    | none => rw [hr] at h; simp at h
    | some r =>
      rw [hr] at h
      dsimp only at h
      cases hrs : stp_rows f D rest with
      | none => rw [hrs] at h; simp at h
      | some rs =>
        rw [hrs] at h
        dsimp only at h
        simp only [Option.some.injEq] at h
        subst h
        obtain ⟨ih1, ih2⟩ := ih rs hrs
        refine ⟨by simp [ih1], ?_⟩
        intro i hi hi2
        cases i with
        | zero => exact hr
        | succ j =>
          exact ih2 j (Nat.lt_of_succ_lt_succ hi) (Nat.lt_of_succ_lt_succ hi2)

/-- Every row of a successful instance loop has exactly D entries. -/
theorem stp_rows_row_lengths (f : Mat → List Int) (D : Nat) (A : Arr3) (Y : Mat)
    (h : stp_rows f D A = some Y) : ∀ r ∈ Y, r.length = D := by
  induction A generalizing Y with
  | nil =>
    simp [stp_rows] at h
    subst h
    simp
  | cons inst rest ih =>
    unfold stp_rows at h
    cases hr : npSetRow D (f (transposeMat inst)) with
    | none => rw [hr] at h; simp at h
    | some r =>
      rw [hr] at h
      dsimp only at h
      cases hrs : stp_rows f D rest with
      | none => rw [hrs] at h; simp at h
      | some rs =>
        rw [hrs] at h
        dsimp only at h
        simp only [Option.some.injEq] at h
        subst h
        intro x hx
        rcases List.mem_cons.mp hx with h1 | h1
        · subst h1
          exact npSetRow_some_length hr
        · exact ih rs hrs x h1

/-- When some instance output cannot be assigned into its row, the instance
loop fails. -/
theorem stp_rows_none_of_bad (f : Mat → List Int) (D : Nat) (A : Arr3) (inst : Mat)
    (hmem : inst ∈ A) (hbad : npSetRow D (f (transposeMat inst)) = none) :
    stp_rows f D A = none := by
  induction A with
  | nil => simp at hmem
  | cons a rest ih =>
    rcases List.mem_cons.mp hmem with h1 | h1
    · subst h1
      simp [stp_rows, hbad]
    · unfold stp_rows
      cases hr : npSetRow D (f (transposeMat a)) with
      | none => rfl
      | some r =>
        dsimp only
        rw [ih h1]

/-- Decomposition of a successful series-to-primitives transform call: the
coercion succeeded, the instance loop produced the output table, and the
final object state is the input state with `transformer_` replaced by the
list of clones fitted on their own instances. -/
theorem stp_transform_ok (f : Mat → List Int) (rt : RowTState) (X : PanelInput)
    (Y : Mat) (rt2 : RowTState)
    (h : SeriesToPrimitivesRowTransformer.transform f rt X = Except.ok (Y, rt2)) :
    ∃ A, check_X_numpy X = Except.ok A ∧
      stp_rows f (numVars A) A = some Y ∧
      rt2 = { rt with transformer_ := some (stp_clones A) } := by
  unfold SeriesToPrimitivesRowTransformer.transform at h
  cases hp : RowTState.prepare rt TType.s2p X with
  | error e => rw [hp] at h; simp at h
  | ok p =>
    obtain ⟨A, rt1⟩ := p
    rw [hp] at h
    dsimp only at h
    have hprep : check_X_numpy X = Except.ok A ∧
        rt1 = { rt with
          transformer_ := some (List.replicate A.length CloneSt.unfitted) } := by
      unfold RowTState.prepare at hp
      split at hp
      · simp at hp
      · cases hck : _check_transformer rt TType.s2p with
        | error e => rw [hck] at hp; simp at hp
        | ok u =>
          rw [hck] at hp
          dsimp only at hp
          cases hA : check_X_numpy X with
          | error e => rw [hA] at hp; simp at hp
          | ok A2 =>
            rw [hA] at hp
            dsimp only at hp
            simp only [Except.ok.injEq, Prod.mk.injEq] at hp
            obtain ⟨hA2, hrt1⟩ := hp
            subst hA2
            exact ⟨rfl, hrt1.symm⟩
    obtain ⟨hA, hrt1⟩ := hprep
    subst hrt1
    cases hs : stp_rows f (numVars A) A with
    | none => rw [hs] at h; simp at h
    | some Y2 =>
      rw [hs] at h
      dsimp only at h
      simp only [Except.ok.injEq, Prod.mk.injEq] at h
      obtain ⟨hY, hrt2⟩ := h
      subst hY
      exact ⟨A, hA, hs, hrt2.symm⟩


/-- The input coercion never raises a TypeError: its failures are the
invalid-panel ValueError and the unequal-length unsupported-data error. -/
theorem check_X_numpy_not_typeError (X : PanelInput) (s : String) :
    check_X_numpy X ≠ Except.error (PyError.typeError s) := by
  cases X with
  | arr3 a =>
    simp only [check_X_numpy]
    split <;> simp
  | nested df =>
    simp only [check_X_numpy]
    split
    · split <;> simp
    · simp

/-- With checking disabled, `_prepare` reduces to the coercion plus the
assignment of the fresh unfitted clone list. -/
theorem prepare_no_check (t2 : TType) (o2 : Option (List CloneSt)) (vt : TType)
    (X : PanelInput) :
    RowTState.prepare
        { transformer := t2, check_transformer := false, is_fitted := true,
          transformer_ := o2 } vt X =
      (match check_X_numpy X with
      | .error e => .error e
      | .ok A =>
        .ok (A,
          { transformer := t2, check_transformer := false, is_fitted := true,
            transformer_ := some (List.replicate A.length CloneSt.unfitted) })) := by
  unfold RowTState.prepare _check_transformer
  simp

/-- C6 counterexample: constructing a row broadcaster with type-checking
enabled and a template carrying neither required capability raises no
error at construction time — `__init__` only stores its arguments, so the
claimed construction-time type-mismatch error does not occur. -/
theorem C6_init_never_raises_counterexample :
    _RowTransformer.init TType.other true =
      Except.ok
        { transformer := TType.other, check_transformer := true,
          is_fitted := false, transformer_ := none } ∧
    _RowTransformer.init TType.other true ≠
      Except.error
        (PyError.typeError ("transformer must be a " ++ typeName TType.s2p)) :=
  ⟨rfl, by simp [_RowTransformer.init]⟩

/-- C6 (amended): the capability check runs inside transform, via `_prepare`:
with type-checking enabled and a fitted broadcaster whose template lacks
the series-to-primitives capability, transform raises the type-mismatch
error naming the required capability class, whatever the input; with
type-checking disabled, transform never raises a type-mismatch error. -/
theorem C6_type_check_in_transform (f : Mat → List Int) (t : TType)
    (o : Option (List CloneSt)) (X : PanelInput) (ht : t ≠ TType.s2p) :
    SeriesToPrimitivesRowTransformer.transform f
        { transformer := t, check_transformer := true, is_fitted := true,
          transformer_ := o } X =
      Except.error
        (PyError.typeError ("transformer must be a " ++ typeName TType.s2p)) ∧
    ∀ (t2 : TType) (o2 : Option (List CloneSt)) (e : String),
      SeriesToPrimitivesRowTransformer.transform f
          { transformer := t2, check_transformer := false, is_fitted := true,
            transformer_ := o2 } X ≠
        Except.error (PyError.typeError e) := by
  constructor
  · simp [SeriesToPrimitivesRowTransformer.transform, RowTState.prepare,
      _check_transformer, ht]
  · intro t2 o2 e h
    unfold SeriesToPrimitivesRowTransformer.transform at h
    rw [prepare_no_check t2 o2 TType.s2p X] at h
    cases hX : check_X_numpy X with
    | error e2 =>
      rw [hX] at h
      dsimp only at h
      injection h with h2
      rw [h2] at hX
      exact check_X_numpy_not_typeError X e hX
    | ok A =>
      rw [hX] at h
      dsimp only at h
      cases hs : stp_rows f (numVars A) A with
      | none => rw [hs] at h; simp at h
      | some Y => rw [hs] at h; simp at h

/-- Witness for C6 (amended) at an incapable template, checking enabled. -/
theorem C6_type_check_in_transform_witness :
    SeriesToPrimitivesRowTransformer.transform (fun m => [(m.length : Int)])
        { transformer := TType.other, check_transformer := true, is_fitted := true,
          transformer_ := none } (PanelInput.arr3 [[[1]]]) =
      Except.error
        (PyError.typeError ("transformer must be a " ++ typeName TType.s2p)) :=
  (C6_type_check_in_transform (fun m => [(m.length : Int)]) TType.other none
    (PanelInput.arr3 [[[1]]]) (by decide)).1

/-- C7: the factory returns the series-to-series broadcaster for a
series-to-series-capable template and the series-to-primitives broadcaster
for a series-to-primitives-capable one; any explicit override string
outside the two valid values raises the configuration ValueError, for
every template; and an undeterminable capability with no override raises
the type-resolution TypeError. -/
theorem C7_factory_selection (s : String) (t : TType) (check : Bool)
    (hs1 : s ≠ "series-to-series") (hs2 : s ≠ "series-to-primitives") :
    make_row_transformer TType.s2s none check =
      Except.ok (RowVariant.seriesToSeries
        { transformer := TType.s2s, check_transformer := check,
          is_fitted := false, transformer_ := none }) ∧
    make_row_transformer TType.s2p none check =
      Except.ok (RowVariant.seriesToPrimitives
        { transformer := TType.s2p, check_transformer := check,
          is_fitted := false, transformer_ := none }) ∧
    make_row_transformer t (some s) check =
      Except.error (PyError.valueError "Invalid transformer_type") ∧
    make_row_transformer TType.other none check =
      Except.error (PyError.typeError "transformer type not understood") := by
  refine ⟨rfl, ?_, ?_, rfl⟩
  · simp [make_row_transformer, resolveTransformerType, _RowTransformer.init]
  · simp [make_row_transformer, resolveTransformerType, hs1, hs2]

/-- Witness for C7 at the override string bogus and an incapable template. -/
theorem C7_factory_selection_witness :
    make_row_transformer TType.other (some "bogus") true =
      Except.error (PyError.valueError "Invalid transformer_type") :=
  (C7_factory_selection "bogus" TType.other true (by decide) (by decide)).2.2.1

/-- C8: for every successful series-to-primitives broadcast over a panel that
coerces to the 3D array A, the output has one row per instance, row i is
exactly the assignment of a fresh clone applied to instance i transposed
(time axis first), and the final clone list pairs clone i with the data of
instance i — output row order matches input instance order. -/
theorem C8_row_order (f : Mat → List Int) (rt : RowTState) (X : PanelInput)
    (Y : Mat) (rt2 : RowTState) (A : Arr3)
    (h : SeriesToPrimitivesRowTransformer.transform f rt X = Except.ok (Y, rt2))
    (hA : check_X_numpy X = Except.ok A) :
    Y.length = A.length ∧
      (∀ i (hi : i < A.length) (hi2 : i < Y.length),
        npSetRow (numVars A) (f (transposeMat (A.get ⟨i, hi⟩))) = some (Y.get ⟨i, hi2⟩)) ∧
      rt2.transformer_ = some (stp_clones A) := by
  obtain ⟨A2, hA2, hs, hrt2⟩ := stp_transform_ok f rt X Y rt2 h
  have hAA : A2 = A := Except.ok.inj (hA2.symm.trans hA)
  subst hAA
  obtain ⟨h1, h2⟩ := stp_rows_sound f (numVars A2) A2 Y hs
  exact ⟨h1, h2, by rw [hrt2]⟩

/-- Witness for C8 at a one-instance panel and a clone returning the series
length. -/
theorem C8_row_order_witness :
    check_X_numpy (PanelInput.arr3 [[[1, 2]]]) = Except.ok [[[1, 2]]] ∧
      ([[2]] : Mat).length = ([[[1, 2]]] : Arr3).length :=
  ⟨rfl, (C8_row_order (fun m => [(m.length : Int)])
    { transformer := TType.s2p, check_transformer := true, is_fitted := true,
      transformer_ := none } (PanelInput.arr3 [[[1, 2]]]) [[2]]
    { transformer := TType.s2p, check_transformer := true, is_fitted := true,
      transformer_ := some [CloneSt.fitted [[1], [2]]] } [[[1, 2]]] rfl rfl).1⟩

/-- C9 counterexample: after a successful transform call the returned object
state still carries the per-instance fitted clone list in `transformer_`,
so a fitted clone does persist as state of the broadcaster object after
the call returns, contrary to the claim. -/
theorem C9_clone_persistence_counterexample :
    SeriesToPrimitivesRowTransformer.transform (fun m => [(m.length : Int)])
        { transformer := TType.s2p, check_transformer := true, is_fitted := true,
          transformer_ := none } (PanelInput.arr3 [[[1, 2]]]) =
      Except.ok ([[2]],
        { transformer := TType.s2p, check_transformer := true, is_fitted := true,
          transformer_ := some [CloneSt.fitted [[1], [2]]] }) ∧
    (some [CloneSt.fitted [[1], [2]]] : Option (List CloneSt)) ≠ none :=
  ⟨rfl, by simp⟩

/-- C9 (amended): the clone list is rebuilt from the template at the start of
every transform call and the previously stored `transformer_` content
never influences the call — the output and the final state are identical
for any two prior values of the attribute — although the freshly fitted
clones are stored in `transformer_` and persist on the object after the
call returns. -/
theorem C9_transformer_attr_refreshed (f : Mat → List Int) (t : TType)
    (c b : Bool) (o1 o2 : Option (List CloneSt)) (X : PanelInput) :
    SeriesToPrimitivesRowTransformer.transform f
        { transformer := t, check_transformer := c, is_fitted := b,
          transformer_ := o1 } X =
      SeriesToPrimitivesRowTransformer.transform f
        { transformer := t, check_transformer := c, is_fitted := b,
          transformer_ := o2 } X := rfl

/-- C10: over a panel coercing to the 3D array A, every successful
series-to-primitives broadcast output has exactly `numVars A` columns in
every row, a width fixed by the input variable count alone; and when some
instance's clone output cannot fill (even by broadcasting) a row of that
width, the call fails rather than returning a differently shaped table. -/
theorem C10_output_width (f : Mat → List Int) (rt : RowTState) (X : PanelInput)
    (A : Arr3) (hA : check_X_numpy X = Except.ok A) :
    (∀ Y rt2, SeriesToPrimitivesRowTransformer.transform f rt X = Except.ok (Y, rt2) →
      ∀ r ∈ Y, r.length = numVars A) ∧
    ((∃ inst ∈ A, npSetRow (numVars A) (f (transposeMat inst)) = none) →
      ∀ Y rt2,
        SeriesToPrimitivesRowTransformer.transform f rt X ≠ Except.ok (Y, rt2)) := by
  constructor
  · intro Y rt2 h
    obtain ⟨A2, hA2, hs, _⟩ := stp_transform_ok f rt X Y rt2 h
    have hAA : A2 = A := Except.ok.inj (hA2.symm.trans hA)
    subst hAA
    exact stp_rows_row_lengths f (numVars A2) A2 Y hs
  · rintro ⟨inst, hmem, hbad⟩ Y rt2 h
    obtain ⟨A2, hA2, hs, _⟩ := stp_transform_ok f rt X Y rt2 h
    have hAA : A2 = A := Except.ok.inj (hA2.symm.trans hA)
    subst hAA
    rw [stp_rows_none_of_bad f (numVars A2) A2 inst hmem hbad] at hs
    simp at hs

/-- Witness for C10: a clone producing an empty output cannot fill the
one-column row, so the transform call cannot succeed. -/
theorem C10_output_width_witness :
    SeriesToPrimitivesRowTransformer.transform (fun _ => ([] : List Int))
        { transformer := TType.s2p, check_transformer := true, is_fitted := true,
          transformer_ := none } (PanelInput.arr3 [[[1, 2]]]) ≠
      Except.ok ([[2]],
        { transformer := TType.s2p, check_transformer := true, is_fitted := true,
          transformer_ := none }) :=
  (C10_output_width (fun _ => ([] : List Int))
    { transformer := TType.s2p, check_transformer := true, is_fitted := true,
      transformer_ := none } (PanelInput.arr3 [[[1, 2]]]) [[[1, 2]]] rfl).2
    ⟨[[1, 2]], by simp, rfl⟩ [[2]]
    { transformer := TType.s2p, check_transformer := true, is_fitted := true,
      transformer_ := none }
